import Mathlib

/-
Verification of src/backend/lambda_function.py (the single source file of the
repository): a shallow embedding of lambda_handler and theorems about it.

Modelling conventions:
- Python JSON values are the inductive type Json below.
- The json.loads outcome for the request body is supplied by the environment
  through the BodyVal inductive (the JSON library itself is external code).
- The single requests.get call (line 67 of the source) is modelled by an
  UpstreamResult value supplied by the environment: either a completed HTTP
  response (status code, raw text, and the result of parsing the text as
  JSON), or one of the exceptions requests can raise.
- datetime.now().isoformat() is the String parameter now.
- json.dumps serialization of the response body is abstracted: the body field
  of LambdaResponse holds the Json object that the source hands to json.dumps.
- print calls are advisory logging and are not modelled.
-/

set_option autoImplicit false

namespace WeatherApp

/-- JSON values as Python represents them after json.loads. Numbers are
modelled as integers, which covers every value the claims exercise. -/
inductive Json where
  | null
  | bool (b : Bool)
  | num (n : Int)
  | str (s : String)
  | arr (elems : List Json)
  | obj (fields : List (String × Json))

/-- Python truthiness of a JSON value, as used by "if not city:" (line 38)
and the truthiness tests on event fields (lines 21 and 24). -/
def Json.truthy : Json → Bool
  | .null => false
  | .bool b => b
  | .num n => n != 0
  | .str s => s != ""
  | .arr l => !l.isEmpty
  | .obj f => !f.isEmpty

/-- Whether a JSON value is an object (a Python dict). -/
def Json.isObj : Json → Bool
  | .obj _ => true
  | _ => false

/-- The CPython type name of a JSON value, used to build AttributeError
messages exactly as CPython prints them. -/
def pyTypeName : Json → String
  | .null => "NoneType"
  | .bool _ => "bool"
  | .num _ => "int"
  | .str _ => "str"
  | .arr _ => "list"
  | .obj _ => "dict"

/-- Message of the AttributeError raised when .get is called on a non-dict
value, exactly as CPython formats it. -/
def noAttrGetMsg (v : Json) : String :=
  "'" ++ pyTypeName v ++ "' object has no attribute 'get'"

/-- Python value.get(key, default): succeeds on dicts (returning the first
binding of the key, or the default when absent), raises AttributeError on
every other type. The error string is the exception message str(e). -/
def pyGet (v : Json) (key : String) (dflt : Json) : Except String Json :=
  match v with
  | .obj fields => .ok ((fields.lookup key).getD dflt)
  | _ => .error (noAttrGetMsg v)

/-- Python value[0]: first element of a list (IndexError when empty), first
character of a string, KeyError on dicts (0 is never a key of a JSON object),
TypeError otherwise. Error strings are the exception messages str(e). -/
def pyIndexZero (v : Json) : Except String Json :=
  match v with
  | .arr [] => .error "list index out of range"
  | .arr (x :: _) => .ok x
  | .str s =>
      if s.isEmpty then .error "string index out of range"
      else .ok (.str (String.singleton s.front))
  | .obj _ => .error "0"
  | v => .error ("'" ++ pyTypeName v ++ "' object is not subscriptable")

/-- The value of the body field of the inbound event, as seen through
json.loads. emptyStr is the empty string (falsy at line 21, so it is treated
like an absent body); invalid is any non-empty string json.loads rejects;
parsed v is a non-empty string that parses to v. -/
inductive BodyVal where
  | emptyStr
  | invalid
  | parsed (v : Json)

/-- The inbound API Gateway event: an optional body string and an optional
query-string dictionary (string-valued, as API Gateway delivers it). -/
structure Event where
  body : Option BodyVal
  queryStringParameters : Option (List (String × String))

/-- Outcome of the requests.get call at line 67, chosen by the environment.
resp is a completed HTTP response carrying the status code, the raw response
text, and the result of response.json() on that text (none when the text is
not valid JSON, in which case response.json() raises a subclass of
json.JSONDecodeError). The other constructors are the exceptions requests can
raise in this code: requests.exceptions.ConnectionError,
requests.exceptions.Timeout, and any other Exception with message msg. -/
inductive UpstreamResult where
  | resp (status : Nat) (text : String) (payload : Option Json)
  | connectionError
  | timeout
  | otherError (msg : String)

/-- The outbound response: statusCode, headers, and the Json object passed to
json.dumps to produce the serialized body. -/
structure LambdaResponse where
  statusCode : Nat
  headers : List (String × String)
  body : Json

/-- The header dictionary. The source repeats this exact literal in all eight
return statements (lines 29-34, 41-46, 92-97, 107-112, 120-125, 133-138,
144-149, 157-162). -/
def corsHeaders : List (String × String) :=
  [("Content-Type", "application/json"),
   ("Access-Control-Allow-Origin", "*"),
   ("Access-Control-Allow-Methods", "GET,POST,OPTIONS"),
   ("Access-Control-Allow-Headers", "Content-Type,X-Amz-Date,Authorization,X-Api-Key,X-Amz-Security-Token")]

/-- Builds one of the return dictionaries of the source: every return uses
the same headers literal, so only status and body vary. -/
def respond (status : Nat) (body : Json) : LambdaResponse :=
  { statusCode := status, headers := corsHeaders, body := body }

/-- The timeout argument of requests.get at line 67. -/
def requestTimeout : Nat := 10

/-- The params dictionary built at lines 60-65 for the upstream call. -/
def buildParams (city : Json) : List (String × Json) :=
  [("place", city), ("units", .str "standard"),
   ("mode", .str "json"), ("lang", .str "en")]

/-- Result of the city-extraction phase, lines 21-36 of the source.
invalidJson: json.loads(event[body]) raised json.JSONDecodeError;
attrError: body.get(city) raised AttributeError (body parsed to a non-dict);
missing: neither a truthy body nor truthy query parameters were present;
city c: extraction produced the value c (Json.null when the key is absent). -/
inductive CityExtract where
  | invalidJson
  | attrError (msg : String)
  | missing
  | city (c : Json)

/-- Lines 21-36: if event.get(body) is truthy, parse it and read the city
key; elif event.get(queryStringParameters) is truthy, read city from it;
else return the missing-parameter response. -/
def extractCity (e : Event) : CityExtract :=
  match e.body with
  | some .invalid => .invalidJson
  | some (.parsed v) =>
      match pyGet v "city" .null with
      | .ok c => .city c
      | .error msg => .attrError msg
  | some .emptyStr | none =>
      match e.queryStringParameters with
      | some qs =>
          if qs.isEmpty then .missing
          else .city ((qs.lookup "city").elim Json.null Json.str)
      | none => .missing

/-- Line 76: first_forecast = weather_data.get(list, [{}])[0]. The default
[{}] applies only when the key is absent; a present value is indexed as is,
so an empty list raises IndexError here. -/
def getFirstForecast (weather_data : Json) : Except String Json :=
  match pyGet weather_data "list" (.arr [.obj []]) with
  | .error e => .error e
  | .ok lst => pyIndexZero lst

/-- Lines 78-88: the formatted_weather dictionary, returned as its field
list. Each step may raise (AttributeError from .get on a non-dict,
IndexError or TypeError from [0]); the matches preserve the order in which
the source evaluates these subexpressions, and duplicated pure
subexpressions such as first_forecast.get(main, {}) are computed once. -/
def formatWeather (city first_forecast : Json) (now : String) :
    Except String (List (String × Json)) :=
  match pyGet first_forecast "main" (.obj []) with
  | .error e => .error e
  | .ok mn =>
  match pyGet mn "temprature" .null with
  | .error e => .error e
  | .ok temperature =>
  match pyGet mn "temprature_feels_like" .null with
  | .error e => .error e
  | .ok feels_like =>
  match pyGet first_forecast "weather" (.arr [.obj []]) with
  | .error e => .error e
  | .ok weatherArr =>
  match pyIndexZero weatherArr with
  | .error e => .error e
  | .ok w0 =>
  match pyGet w0 "description" .null with
  | .error e => .error e
  | .ok description =>
  match pyGet w0 "icon" .null with
  | .error e => .error e
  | .ok icon =>
  match pyGet mn "humidity" .null with
  | .error e => .error e
  | .ok humidity =>
  match pyGet first_forecast "wind" (.obj []) with
  | .error e => .error e
  | .ok wind =>
  match pyGet wind "speed" .null with
  | .error e => .error e
  | .ok speed =>
      .ok [("city", city),
           ("country", Json.null),
           ("temperature", temperature),
           ("feels_like", feels_like),
           ("description", description),
           ("icon", icon),
           ("humidity", humidity),
           ("wind_speed", speed),
           ("timestamp", .str now)]

/-- The handler, lines 11-164 of the source. Exceptions raised inside the
try block are routed to the matching except clause: HTTPError from
raise_for_status (line 68, raised iff 400 <= status < 600) to lines 101-114,
ConnectionError to 115-127, Timeout to 128-140, JSONDecodeError (from
json.loads on the request body or from response.json()) to 141-151, and any
other Exception (AttributeError, IndexError, TypeError, KeyError from the
reshaping) to the catch-all at 152-164 with details str(e). -/
def lambda_handler (event : Event) (upstream : UpstreamResult) (now : String) :
    LambdaResponse :=
  match extractCity event with
  | .invalidJson =>
      respond 400 (.obj [("error", .str "Invalid JSON in request body.")])
  | .attrError msg =>
      respond 500 (.obj [("error", .str "Internal server error."),
                         ("details", .str msg)])
  | .missing =>
      respond 400 (.obj [("error", .str "City parameter missing in request body or query string.")])
  | .city city =>
      if !city.truthy then
        respond 400 (.obj [("error", .str "City parameter is required.")])
      else
        match upstream with
        | .connectionError =>
            respond 500 (.obj [("error", .str "Network connection error while fetching weather data.")])
        | .timeout =>
            respond 500 (.obj [("error", .str "Request to external API timed out.")])
        | .otherError msg =>
            respond 500 (.obj [("error", .str "Internal server error."),
                               ("details", .str msg)])
        | .resp status text payload =>
            if 400 ≤ status ∧ status < 600 then
              respond status (.obj [("error", .str "Failed to fetch weather data from external API."),
                                    ("details", .str ("HTTP error occurred: " ++ text))])
            else
              match payload with
              | none =>
                  respond 400 (.obj [("error", .str "Invalid JSON in request body.")])
              | some weather_data =>
                  match getFirstForecast weather_data with
                  | .error msg =>
                      respond 500 (.obj [("error", .str "Internal server error."),
                                         ("details", .str msg)])
                  | .ok first_forecast =>
                      match formatWeather city first_forecast now with
                      | .error msg =>
                          respond 500 (.obj [("error", .str "Internal server error."),
                                             ("details", .str msg)])
                      | .ok fields => respond 200 (.obj fields)

/-- Field lookup in a response body object, for stating claims about
body.error, body.details, body.city and the weather fields. -/
def Json.getField : Json → String → Option Json
  | .obj fields, key => fields.lookup key
  | _, _ => none

end WeatherApp

namespace WeatherApp

/-- Helper: a successful formatWeather always places the input city value
under the city key of the produced field list. -/
theorem formatWeather_city_field (city ff : Json) (now : String)
    (fields : List (String × Json))
    (h : formatWeather city ff now = .ok fields) :
    fields.lookup "city" = some city := by
  unfold formatWeather at h
  repeat' split at h
  all_goals simp_all
  subst h
  simp [List.lookup]

/-- C2: every response of lambda_handler, on the success path and on every
error path alike, carries the fixed header map with Content-Type and the
three CORS headers. -/
theorem C2_cors_invariant (e : Event) (u : UpstreamResult) (now : String) :
    (lambda_handler e u now).headers =
      [("Content-Type", "application/json"),
       ("Access-Control-Allow-Origin", "*"),
       ("Access-Control-Allow-Methods", "GET,POST,OPTIONS"),
       ("Access-Control-Allow-Headers", "Content-Type,X-Amz-Date,Authorization,X-Api-Key,X-Amz-Security-Token")] := by
  unfold lambda_handler
  repeat' split
  all_goals rfl

/-- C6: on every input and every upstream outcome, lambda_handler produces a
structured response: a status code, the fixed header map, and a JSON object
body handed to serialization; no path fails to produce such a response. -/
theorem C6_always_structured_response (e : Event) (u : UpstreamResult) (now : String) :
    ∃ s fields, lambda_handler e u now =
      { statusCode := s, headers := corsHeaders, body := Json.obj fields } := by
  unfold lambda_handler
  repeat' split
  all_goals exact ⟨_, _, rfl⟩

end WeatherApp

namespace WeatherApp

/-- C1 counterexample: with city London and an upstream 200 reply whose
payload binds list to an empty sequence, the handler returns 500 (IndexError
from indexing the empty list, caught by the catch-all), not 200 as claimed. -/
theorem C1_counterexample :
    (lambda_handler ⟨some (.parsed (.obj [("city", Json.str "London")])), none⟩
        (.resp 200 "" (some (.obj [("list", Json.arr [])]))) "2024-01-01T00:00:00").statusCode = 500 ∧
    (lambda_handler ⟨some (.parsed (.obj [("city", Json.str "London")])), none⟩
        (.resp 200 "" (some (.obj [("list", Json.arr [])]))) "2024-01-01T00:00:00").statusCode ≠ 200 :=
  ⟨rfl, by decide⟩

/-- C1 (amended): for every request with a truthy city and an upstream 2xx
reply whose payload binds list to an empty sequence, indexing [0] raises
IndexError, so the handler returns 500 with error Internal server error. and
details list index out of range (the 200-with-nulls behaviour only occurs
when list is absent). -/
theorem C1_empty_list_is_500 (e : Event) (c : Json) (s : Nat) (t : String)
    (fs : List (String × Json)) (now : String)
    (hc : extractCity e = .city c) (ht : c.truthy = true)
    (hs : 200 ≤ s ∧ s < 300)
    (hl : fs.lookup "list" = some (Json.arr [])) :
    lambda_handler e (.resp s t (some (.obj fs))) now =
      respond 500 (.obj [("error", .str "Internal server error."),
                         ("details", .str "list index out of range")]) := by
  have hnot : ¬(400 ≤ s ∧ s < 600) := by omega
  simp [lambda_handler, hc, ht, hnot, getFirstForecast, pyGet, hl, pyIndexZero]

/-- C1 witness: the amended theorem applied at a concrete input. -/
theorem C1_empty_list_is_500_witness :
    lambda_handler ⟨some (.parsed (.obj [("city", Json.str "Rome")])), none⟩
        (.resp 204 "" (some (.obj [("list", Json.arr [])]))) "ts" =
      respond 500 (.obj [("error", .str "Internal server error."),
                         ("details", .str "list index out of range")]) :=
  C1_empty_list_is_500 _ (Json.str "Rome") 204 "" [("list", Json.arr [])] "ts"
    rfl rfl (by omega) rfl

/-- C4: requestTimeout is 10, and whenever city extraction yields a truthy
city and the upstream call raises Timeout, the handler returns 500 with the
timeout error message, not the connection-error or generic internal one. -/
theorem C4_timeout_is_500 (e : Event) (c : Json) (now : String)
    (hc : extractCity e = .city c) (ht : c.truthy = true) :
    requestTimeout = 10 ∧
    lambda_handler e .timeout now =
      respond 500 (.obj [("error", .str "Request to external API timed out.")]) :=
  ⟨rfl, by simp [lambda_handler, hc, ht]⟩

/-- C4 witness: the theorem applied at a concrete request. -/
theorem C4_timeout_is_500_witness :
    requestTimeout = 10 ∧
    lambda_handler ⟨some (.parsed (.obj [("city", Json.str "Cairo")])), none⟩ .timeout "ts" =
      respond 500 (.obj [("error", .str "Request to external API timed out.")]) :=
  C4_timeout_is_500 _ (Json.str "Cairo") "ts" rfl rfl

/-- C5: whenever city extraction yields a truthy city and the upstream reply
has an HTTP error status (4xx or 5xx), the handler passes the upstream status
through unchanged, reports the fetch-failure error, and the details field
contains the upstream raw response text (prefixed by the HTTPError label). -/
theorem C5_http_error_passthrough (e : Event) (c : Json) (s : Nat) (t : String)
    (p : Option Json) (now : String)
    (hc : extractCity e = .city c) (ht : c.truthy = true)
    (hs : 400 ≤ s ∧ s < 600) :
    lambda_handler e (.resp s t p) now =
      respond s (.obj [("error", .str "Failed to fetch weather data from external API."),
                       ("details", .str ("HTTP error occurred: " ++ t))]) ∧
    ∃ pre, "HTTP error occurred: " ++ t = pre ++ t :=
  ⟨by simp [lambda_handler, hc, ht, hs], "HTTP error occurred: ", rfl⟩

/-- C5 witness: the theorem applied at a concrete 404 reply. -/
theorem C5_http_error_passthrough_witness :
    lambda_handler ⟨some (.parsed (.obj [("city", Json.str "Atlantis")])), none⟩
        (.resp 404 "city not found" none) "ts" =
      respond 404 (.obj [("error", .str "Failed to fetch weather data from external API."),
                         ("details", .str ("HTTP error occurred: " ++ "city not found"))]) ∧
    ∃ pre, "HTTP error occurred: " ++ "city not found" = pre ++ "city not found" :=
  C5_http_error_passthrough _ (Json.str "Atlantis") 404 "city not found" none "ts"
    rfl rfl (by omega)

/-- C7: whenever city extraction yields a falsy value (empty or absent), the
handler returns 400 City parameter is required., for every upstream outcome
(so the upstream call has no influence on the response). -/
theorem C7_empty_city_is_400 (e : Event) (c : Json) (u : UpstreamResult) (now : String)
    (hc : extractCity e = .city c) (ht : c.truthy = false) :
    lambda_handler e u now =
      respond 400 (.obj [("error", .str "City parameter is required.")]) := by
  simp [lambda_handler, hc, ht]

/-- C7 witness: the theorem applied to the request body with city bound to
the empty string. -/
theorem C7_empty_city_is_400_witness :
    lambda_handler ⟨some (.parsed (.obj [("city", Json.str "")])), none⟩ .timeout "ts" =
      respond 400 (.obj [("error", .str "City parameter is required.")]) :=
  C7_empty_city_is_400 _ (Json.str "") .timeout "ts" rfl rfl

/-- C8: whenever the event body is non-empty and not parseable as JSON, the
handler returns 400 Invalid JSON in request body., for every upstream
outcome. -/
theorem C8_invalid_body_is_400 (e : Event) (u : UpstreamResult) (now : String)
    (h : e.body = some .invalid) :
    lambda_handler e u now =
      respond 400 (.obj [("error", .str "Invalid JSON in request body.")]) := by
  simp [lambda_handler, extractCity, h]

/-- C8 witness: the theorem applied at a concrete event. -/
theorem C8_invalid_body_is_400_witness :
    lambda_handler ⟨some .invalid, none⟩ .connectionError "ts" =
      respond 400 (.obj [("error", .str "Invalid JSON in request body.")]) :=
  C8_invalid_body_is_400 ⟨some .invalid, none⟩ .connectionError "ts" rfl

/-- C9: whenever city extraction yields a truthy city and the upstream reply
is 2xx with a body that is not valid JSON, the JSONDecodeError raised by
response.json() is caught by the clause meant for malformed client bodies, so
the handler returns 400 Invalid JSON in request body. -/
theorem C9_upstream_bad_json_is_400 (e : Event) (c : Json) (s : Nat) (t : String)
    (now : String)
    (hc : extractCity e = .city c) (ht : c.truthy = true)
    (hs : 200 ≤ s ∧ s < 300) :
    lambda_handler e (.resp s t none) now =
      respond 400 (.obj [("error", .str "Invalid JSON in request body.")]) := by
  have hnot : ¬(400 ≤ s ∧ s < 600) := by omega
  simp [lambda_handler, hc, ht, hnot]

/-- C9 witness: the theorem applied at a concrete input. -/
theorem C9_upstream_bad_json_is_400_witness :
    lambda_handler ⟨some (.parsed (.obj [("city", Json.str "Oslo")])), none⟩
        (.resp 200 "<html>" none) "ts" =
      respond 400 (.obj [("error", .str "Invalid JSON in request body.")]) :=
  C9_upstream_bad_json_is_400 _ (Json.str "Oslo") 200 "<html>" "ts" rfl rfl (by omega)

/-- C10: whenever the event body parses to a JSON value that is not an
object, reading the city key raises AttributeError, caught by the catch-all:
the handler returns 500 Internal server error. with the exception message
under details, for every upstream outcome. -/
theorem C10_nonobject_body_is_500 (e : Event) (v : Json) (u : UpstreamResult)
    (now : String)
    (hb : e.body = some (.parsed v)) (hv : v.isObj = false) :
    lambda_handler e u now =
      respond 500 (.obj [("error", .str "Internal server error."),
                         ("details", .str (noAttrGetMsg v))]) := by
  have hp : pyGet v "city" Json.null = .error (noAttrGetMsg v) := by
    cases v <;> simp [pyGet, Json.isObj] at hv ⊢
  simp [lambda_handler, extractCity, hb, hp]

/-- C10 witness: the theorem applied to a body that parses to a JSON array. -/
theorem C10_nonobject_body_is_500_witness :
    lambda_handler ⟨some (.parsed (.arr [Json.num 1])), none⟩ .timeout "ts" =
      respond 500 (.obj [("error", .str "Internal server error."),
                         ("details", .str (noAttrGetMsg (.arr [Json.num 1])))]) :=
  C10_nonobject_body_is_500 _ (.arr [Json.num 1]) .timeout "ts" rfl rfl

end WeatherApp

namespace WeatherApp

/-- C3 counterexample: with city London and an upstream 200 reply whose
payload has the non-empty list [5], reshaping the first entry raises
AttributeError (an int has no .get), so the handler returns 500, not 200 as
the unconditional claim states. -/
theorem C3_counterexample :
    (lambda_handler ⟨some (.parsed (.obj [("city", Json.str "London")])), none⟩
        (.resp 200 "ok" (some (.obj [("list", Json.arr [Json.num 5])]))) "ts").statusCode = 500 ∧
    (lambda_handler ⟨some (.parsed (.obj [("city", Json.str "London")])), none⟩
        (.resp 200 "ok" (some (.obj [("list", Json.arr [Json.num 5])]))) "ts").statusCode ≠ 200 :=
  ⟨rfl, by decide⟩

/-- C3 (amended): for every request whose city extraction yields a non-empty
string, with an upstream 2xx reply whose payload has a non-empty list and
whose first entry reshapes without error, the handler returns 200 and the
city field of the response body is exactly the input city string. -/
theorem C3_city_echoed (e : Event) (c : String) (s : Nat) (t : String)
    (fs : List (String × Json)) (f0 : Json) (rest : List Json)
    (fields : List (String × Json)) (now : String)
    (hc : extractCity e = .city (.str c)) (hne : c ≠ "")
    (hs : 200 ≤ s ∧ s < 300)
    (hl : fs.lookup "list" = some (Json.arr (f0 :: rest)))
    (hfw : formatWeather (.str c) f0 now = .ok fields) :
    lambda_handler e (.resp s t (some (.obj fs))) now = respond 200 (.obj fields) ∧
    Json.getField (.obj fields) "city" = some (.str c) := by
  have hnot : ¬(400 ≤ s ∧ s < 600) := by omega
  constructor
  · simp [lambda_handler, hc, Json.truthy, hne, hnot, getFirstForecast, pyGet, hl,
      pyIndexZero, hfw]
  · simpa [Json.getField] using formatWeather_city_field (.str c) f0 now fields hfw

/-- C3 witness: the amended theorem applied at a concrete input. -/
theorem C3_city_echoed_witness :
    lambda_handler ⟨some (.parsed (.obj [("city", Json.str "Paris")])), none⟩
        (.resp 200 "ok" (some (.obj [("list", Json.arr [Json.obj []])]))) "ts" =
      respond 200 (.obj [("city", .str "Paris"), ("country", Json.null),
                         ("temperature", Json.null), ("feels_like", Json.null),
                         ("description", Json.null), ("icon", Json.null),
                         ("humidity", Json.null), ("wind_speed", Json.null),
                         ("timestamp", .str "ts")]) ∧
    Json.getField (.obj [("city", .str "Paris"), ("country", Json.null),
                         ("temperature", Json.null), ("feels_like", Json.null),
                         ("description", Json.null), ("icon", Json.null),
                         ("humidity", Json.null), ("wind_speed", Json.null),
                         ("timestamp", .str "ts")]) "city" = some (.str "Paris") :=
  C3_city_echoed _ "Paris" 200 "ok" [("list", Json.arr [Json.obj []])] (Json.obj [])
    [] _ "ts" rfl (by decide) (by omega) rfl rfl

end WeatherApp
